import Mathlib

/-!
Verification development for the trading-analysis repository.

Shallow embedding of the core numeric/decision code of
`src/finnhub_api.py` and `src/nse_bse_api.py`: technical-indicator
computations, the rule-based recommendation scorer, and the risk
metrics.  Pandas/NumPy float values are modelled by `PFloat`, an exact
rational carrier extended with `nan`, `inf` and `ninf` following IEEE
semantics for the operations the code performs (comparisons against
NaN are false, division by zero yields a signed infinity or NaN, NaN
propagates through arithmetic).  Python `round(x, 2)` is modelled as
round-half-to-even at two decimals over ℚ.
-/

/- The Batteries rational-number operations are `@[irreducible]`, which
blocks `decide`-style evaluation of concrete rational computations; restore
the default reducibility inside this file so concrete runs of the embedded
code can be checked by evaluation. -/
attribute [local semireducible] Rat.mul Rat.inv Rat.add Rat.sub Rat.ofScientific

/-- IEEE-style float value: NaN, ±infinity, or an exact rational. -/
inductive PFloat where
  | nan : PFloat
  | inf : PFloat
  | ninf : PFloat
  | val : ℚ → PFloat
deriving DecidableEq

namespace PFloat

/-- IEEE `<`: any comparison involving NaN is false. -/
def lt : PFloat → PFloat → Bool
  | .nan, _ => false
  | _, .nan => false
  | _, .ninf => false
  | .ninf, _ => true
  | .inf, _ => false
  | _, .inf => true
  | .val a, .val b => decide (a < b)

/-- Python truthiness of a float: only (±)0.0 is falsy; NaN and
infinities are truthy. -/
def truthy : PFloat → Bool
  | .val q => decide (q ≠ 0)
  | _ => true

/-- IEEE negation. -/
def neg : PFloat → PFloat
  | .nan => .nan
  | .inf => .ninf
  | .ninf => .inf
  | .val a => .val (-a)

/-- IEEE addition (no signed-zero tracking; the code never depends on it). -/
def add : PFloat → PFloat → PFloat
  | .nan, _ => .nan
  | _, .nan => .nan
  | .inf, .ninf => .nan
  | .ninf, .inf => .nan
  | .inf, _ => .inf
  | _, .inf => .inf
  | .ninf, _ => .ninf
  | _, .ninf => .ninf
  | .val a, .val b => .val (a + b)

/-- IEEE subtraction. -/
def sub (a b : PFloat) : PFloat := add a (neg b)

/-- IEEE division: finite/0 gives a signed infinity (NaN for 0/0),
finite/∞ gives 0, ∞/∞ gives NaN. -/
def div : PFloat → PFloat → PFloat
  | .nan, _ => .nan
  | _, .nan => .nan
  | .inf, .inf => .nan
  | .inf, .ninf => .nan
  | .ninf, .inf => .nan
  | .ninf, .ninf => .nan
  | .inf, .val b => if b < 0 then .ninf else .inf
  | .ninf, .val b => if b < 0 then .inf else .ninf
  | .val _, .inf => .val 0
  | .val _, .ninf => .val 0
  | .val a, .val b =>
    if b = 0 then (if 0 < a then .inf else if a < 0 then .ninf else .nan)
    else .val (a / b)

end PFloat

/-- Python `round` at 0 decimals on an exact rational: round half to even. -/
def pyRound (y : ℚ) : ℤ :=
  if y - ⌊y⌋ < 1/2 then ⌊y⌋
  else if 1/2 < y - ⌊y⌋ then ⌊y⌋ + 1
  else if ⌊y⌋ % 2 = 0 then ⌊y⌋ else ⌊y⌋ + 1

/-- Python `round(x, 2)`. -/
def round2 (x : ℚ) : ℚ := (pyRound (100 * x) : ℚ) / 100

/-- `StockRecommendation` dataclass (identical in both API files). -/
structure StockRecommendation where
  action : String
  current_price : ℚ
  target_price : ℚ
  stop_loss : ℚ
  confidence : ℚ
  reasoning : String
  risk_level : String
deriving DecidableEq

/-- The slice of the technical-analysis dict that the recommendation
scorer reads.  `none` models an absent key; a present key holds a
`PFloat` (possibly NaN, as produced by incomplete rolling windows in
the Finnhub engine). -/
structure Technical where
  rsi : Option PFloat
  sma_20 : Option PFloat
  sma_50 : Option PFloat
  macd : Option PFloat
  macd_signal : Option PFloat
  bb_position : Option PFloat
deriving DecidableEq

/-- Technical-analysis dict with every key absent (empty dataframe case). -/
def emptyTechnical : Technical := ⟨none, none, none, none, none, none⟩

/-! ## Recommendation scorer: signal checks (finnhub_api.py lines 226-264,
nse_bse_api.py lines 379-419).  Each check returns its score delta and the
reasons it appends, in order. -/

/-- finnhub_api.py 227-233: `rsi = technical.get('rsi', 50)` then
`if rsi < 30 ... elif rsi > 70 ...`. -/
def rsi_check_finnhub (rsi : PFloat) : ℤ × List String :=
  if PFloat.lt rsi (.val 30) then (2, ["RSI oversold (bullish)"])
  else if PFloat.lt (.val 70) rsi then (-2, ["RSI overbought (bearish)"])
  else (0, [])

/-- finnhub_api.py 236-244: SMA values default to `current_price` when the
key is absent; chained comparison `current_price > sma_20 > sma_50`. -/
def sma_check_finnhub (current_price : ℚ) (s20 s50 : PFloat) : ℤ × List String :=
  if PFloat.lt s20 (.val current_price) && PFloat.lt s50 s20 then
    (1, ["Price above key moving averages"])
  else if PFloat.lt (.val current_price) s20 && PFloat.lt s20 s50 then
    (-1, ["Price below key moving averages"])
  else (0, [])

/-- finnhub_api.py 247-255 and nse_bse_api.py 401-409 (identical): both
values default to 0 when absent; `if macd > macd_signal ... else ...` —
the else branch always fires when the comparison is false. -/
def macd_check (macd macd_sig : PFloat) : ℤ × List String :=
  if PFloat.lt macd_sig macd then (1, ["MACD bullish crossover"])
  else (-1, ["MACD bearish trend"])

/-- finnhub_api.py 258-264: `bb_position = technical.get('bb_position', 0.5)`. -/
def bb_check_finnhub (bb : PFloat) : ℤ × List String :=
  if PFloat.lt bb (.val (1/5)) then (1, ["Near lower Bollinger Band (potential bounce)"])
  else if PFloat.lt (.val (4/5)) bb then (-1, ["Near upper Bollinger Band (potential pullback)"])
  else (0, [])

/-- nse_bse_api.py 380-386: `if rsi and rsi < 30 ... elif rsi and rsi > 70`
— Python truthiness guards each branch. -/
def rsi_check_nse (rsi : PFloat) : ℤ × List String :=
  if PFloat.truthy rsi && PFloat.lt rsi (.val 30) then (2, ["RSI oversold (bullish signal)"])
  else if PFloat.truthy rsi && PFloat.lt (.val 70) rsi then (-2, ["RSI overbought (bearish signal)"])
  else (0, [])

/-- nse_bse_api.py 389-398: `sma_20 = technical.get('sma_20')` (no default),
then `if sma_20 and sma_50:` guarding the chained comparisons. -/
def sma_check_nse (current_price : ℚ) (s20 s50 : Option PFloat) : ℤ × List String :=
  match s20, s50 with
  | some a, some b =>
    if PFloat.truthy a && PFloat.truthy b then
      (if PFloat.lt a (.val current_price) && PFloat.lt b a then
        (1, ["Price above key moving averages"])
      else if PFloat.lt (.val current_price) a && PFloat.lt a b then
        (-1, ["Price below key moving averages"])
      else (0, []))
    else (0, [])
  | _, _ => (0, [])

/-- nse_bse_api.py 412-419: `bb_position = technical.get('bb_position')`
then `if bb_position:` (truthiness) guarding the band tests. -/
def bb_check_nse (bb : Option PFloat) : ℤ × List String :=
  match bb with
  | some b =>
    if PFloat.truthy b then
      (if PFloat.lt b (.val (1/5)) then (1, ["Near lower Bollinger Band (potential bounce)"])
      else if PFloat.lt (.val (4/5)) b then (-1, ["Near upper Bollinger Band (potential pullback)"])
      else (0, []))
    else (0, [])
  | none => (0, [])

/-- finnhub_api.py 223-264: accumulate score and reasons over the four
checks, in source order (rsi, moving averages, MACD, Bollinger). -/
def finnhub_calculate_score (technical : Technical) (current_price : ℚ) : ℤ × List String :=
  let rsiC := rsi_check_finnhub ((technical.rsi).getD (.val 50))
  let smaC := sma_check_finnhub current_price
    ((technical.sma_20).getD (.val current_price)) ((technical.sma_50).getD (.val current_price))
  let macdC := macd_check ((technical.macd).getD (.val 0)) ((technical.macd_signal).getD (.val 0))
  let bbC := bb_check_finnhub ((technical.bb_position).getD (.val (1/2)))
  (rsiC.1 + smaC.1 + macdC.1 + bbC.1, rsiC.2 ++ smaC.2 ++ macdC.2 ++ bbC.2)

/-- nse_bse_api.py 376-419: same accumulation with the NSE/BSE checks. -/
def nse_calculate_score (technical : Technical) (current_price : ℚ) : ℤ × List String :=
  let rsiC := rsi_check_nse ((technical.rsi).getD (.val 50))
  let smaC := sma_check_nse current_price technical.sma_20 technical.sma_50
  let macdC := macd_check ((technical.macd).getD (.val 0)) ((technical.macd_signal).getD (.val 0))
  let bbC := bb_check_nse technical.bb_position
  (rsiC.1 + smaC.1 + macdC.1 + bbC.1, rsiC.2 ++ smaC.2 ++ macdC.2 ++ bbC.2)

/-- finnhub_api.py 266-309 = nse_bse_api.py 421-464 up to the fallback
reasoning string (`fallback` parameter): map the final score to action,
confidence, target price and risk level, compute the stop loss from the
action, join the reasons. -/
def recommendation_from_score (fallback : String) (score : ℤ) (current_price : ℚ)
    (reasons : List String) : StockRecommendation :=
  let t : String × ℚ × ℚ × String :=
    if 3 ≤ score then
      ("STRONG_BUY", min (9/10) (6/10 + (score : ℚ) * (5/100)), current_price * (115/100), "MEDIUM")
    else if 1 ≤ score then
      ("BUY", min (8/10) (6/10 + (score : ℚ) * (5/100)), current_price * (108/100), "MEDIUM")
    else if score ≤ -3 then
      ("STRONG_SELL", min (9/10) (6/10 + (score.natAbs : ℚ) * (5/100)), current_price * (85/100), "HIGH")
    else if score ≤ -1 then
      ("SELL", min (8/10) (6/10 + (score.natAbs : ℚ) * (5/100)), current_price * (92/100), "MEDIUM_HIGH")
    else
      ("HOLD", 1/2, current_price, "MEDIUM")
  let stop_loss := if t.1 = "BUY" ∨ t.1 = "STRONG_BUY"
    then current_price * (98/100) else current_price * (102/100)
  let reasoning := if reasons.isEmpty then fallback else String.intercalate "; " reasons
  ⟨t.1, current_price, round2 t.2.2.1, round2 stop_loss, round2 t.2.1, reasoning, t.2.2.2⟩

/-- The degenerate recommendation returned when the current price is
zero/missing (finnhub_api.py 215-219, nse_bse_api.py 368-372). -/
def insufficientDataRecommendation : StockRecommendation :=
  ⟨"HOLD", 0, 0, 0, 0, "Insufficient data", "UNKNOWN"⟩

/-- finnhub_api.py `_generate_trading_recommendation`: extract
`current_quote['c']` defaulting to 0, short-circuit when falsy, else
score and map. -/
def finnhub_generate (technical : Technical) (quote_close : Option ℚ) : StockRecommendation :=
  let current_price := quote_close.getD 0
  if current_price = 0 then insufficientDataRecommendation
  else
    let sr := finnhub_calculate_score technical current_price
    recommendation_from_score "Mixed signals" sr.1 current_price sr.2

/-- nse_bse_api.py `_generate_trading_recommendation`. -/
def nse_generate (technical : Technical) (quote_close : Option ℚ) : StockRecommendation :=
  let current_price := quote_close.getD 0
  if current_price = 0 then insufficientDataRecommendation
  else
    let sr := nse_calculate_score technical current_price
    recommendation_from_score "Mixed technical signals" sr.1 current_price sr.2

/-! ## Indicator engine (finnhub_api.py `_calculate_technical_indicators`
lines 159-208, nse_bse_api.py lines 307-361).  The input is the column of
closing prices, oldest first. -/

/-- The last `n` elements of a list (the `n`-window that pandas
`rolling(n)` uses for the final row). -/
def lastN (n : ℕ) (xs : List ℚ) : List ℚ := xs.drop (xs.length - n)

/-- Arithmetic mean (only ever applied to non-empty windows). -/
def meanQ (xs : List ℚ) : ℚ := xs.sum / (xs.length : ℚ)

/-- Day-over-day differences, `df['close'].diff()` without its leading NaN. -/
def diffs : List ℚ → List ℚ
  | [] => []
  | [_] => []
  | a :: b :: rest => (b - a) :: diffs (b :: rest)

/-- finnhub_api.py 168-170: `df['close'].rolling(n).mean().iloc[-1]`.
pandas leaves NaN in every row whose window is incomplete, so for a series
shorter than `n` the key is present in the dict and holds NaN. -/
def finnhub_sma (n : ℕ) (closes : List ℚ) : PFloat :=
  if n ≤ closes.length then .val (meanQ (lastN n closes)) else .nan

/-- nse_bse_api.py 316-318 and 355: the value is `None` when
`len(df) < n`, and `None`-valued keys are filtered out of the dict
afterwards, so the key is absent. -/
def nse_sma (n : ℕ) (closes : List ℚ) : Option ℚ :=
  if n ≤ closes.length then some (meanQ (lastN n closes)) else none

/-- RSI as computed at finnhub_api.py 174-181 = nse_bse_api.py 322-329:
`delta = df['close'].diff()` has a leading NaN; `delta.where(delta > 0, 0)`
turns that NaN (and every non-positive delta) into 0, so the gain/loss
series start with an extra 0.  The final `rolling(14).mean()` value exists
iff the series has at least 14 rows, else it is NaN.  `rs = avg_gain /
avg_loss` and `rsi = 100 - 100 / (1 + rs)` follow NumPy float semantics:
positive/0 gives +inf (and RSI 100), 0/0 gives NaN (and RSI NaN). -/
def rsi_last (closes : List ℚ) : PFloat :=
  if 14 ≤ closes.length then
    let ds := diffs closes
    let gains := 0 :: ds.map (fun d => if 0 < d then d else 0)
    let losses := 0 :: ds.map (fun d => if d < 0 then -d else 0)
    let avg_gain := meanQ (lastN 14 gains)
    let avg_loss := meanQ (lastN 14 losses)
    let rs := PFloat.div (.val avg_gain) (.val avg_loss)
    PFloat.sub (.val 100) (PFloat.div (.val 100) (PFloat.add (.val 1) rs))
  else .nan

/-- Sample variance with ddof = 1, the statistic under pandas
`rolling(20).std()` and `Series.var()`. -/
def sampleVarQ (xs : List ℚ) : ℚ :=
  ((xs.map (fun x => (x - meanQ xs)^2)).sum) / ((xs.length : ℚ) - 1)

/-- A NumPy double that may be NaN or infinite, real-valued payload
(needed because the Bollinger computation takes a square root). -/
inductive PFloatR where
  | nan : PFloatR
  | inf : PFloatR
  | ninf : PFloatR
  | val : ℝ → PFloatR

open scoped Classical in
/-- NumPy scalar division over ℝ: finite/0 is a signed infinity, 0/0 NaN. -/
noncomputable def divIEEE (num den : ℝ) : PFloatR :=
  if den = 0 then (if 0 < num then .inf else if num < 0 then .ninf else .nan)
  else .val (num / den)

/-- The Bollinger-position expression of finnhub_api.py 192-198 =
nse_bse_api.py 341-347 for a series with at least 20 bars:
`(df['close'].iloc[-1] - bb_lower) / (bb_upper - bb_lower)` where
`bb_upper/lower = sma_20 ± 2*std_20` from the last 20-close window. -/
noncomputable def bb_position_value (closes : List ℚ) : PFloatR :=
  let w := lastN 20 closes
  let sma : ℝ := (meanQ w : ℚ)
  let sd : ℝ := Real.sqrt (sampleVarQ w)
  let upper : ℝ := sma + 2 * sd
  let lower : ℝ := sma - 2 * sd
  let lastClose : ℝ := ((closes.getLast?.getD 0 : ℚ) : ℝ)
  divIEEE (lastClose - lower) (upper - lower)

/-- nse_bse_api.py 341-347: the whole Bollinger block is guarded by
`if len(df) >= 20:`, so the key is absent for shorter series and holds the
computed quotient otherwise (the division is always evaluated). -/
noncomputable def nse_bb_position (closes : List ℚ) : Option PFloatR :=
  if 20 ≤ closes.length then some (bb_position_value closes) else none

/-- finnhub_api.py 192-198: no length guard; with fewer than 20 bars the
rolling bands are NaN and the quotient is NaN, otherwise it is the same
expression. -/
noncomputable def finnhub_bb_position (closes : List ℚ) : PFloatR :=
  if 20 ≤ closes.length then bb_position_value closes else .nan

/-! ## Risk metrics (finnhub_api.py `_calculate_risk_metrics` 318-345,
nse_bse_api.py 473-502): only the beta computation is claim-relevant. -/

/-- Claim C1: the claim states that a scoring signal whose prerequisite
indicator is absent contributes 0 and appends no reason, and in particular
that neither MACD signal fires when `macd` and `macd_signal` are both
absent.  The code contradicts this: with every indicator absent (so both
MACD values default to 0) the `if macd > macd_signal ... else ...` falls
into the else branch, scores −1, appends "MACD bearish trend", and the
overall recommendation at price 100 is SELL instead of a signal-free HOLD.
This holds in both the Finnhub and the NSE/BSE scorer. -/
theorem c1_macd_fires_on_absent_indicators :
    finnhub_calculate_score emptyTechnical 100 = (-1, ["MACD bearish trend"]) ∧
    nse_calculate_score emptyTechnical 100 = (-1, ["MACD bearish trend"]) ∧
    finnhub_generate emptyTechnical (some 100) =
      ⟨"SELL", 100, 92, 102, 65/100, "MACD bearish trend", "MEDIUM_HIGH"⟩ ∧
    nse_generate emptyTechnical (some 100) =
      ⟨"SELL", 100, 92, 102, 65/100, "MACD bearish trend", "MEDIUM_HIGH"⟩ := by
  refine ⟨by decide, by decide, by decide, by decide⟩

/-- Claim C2 counterexample: on a zero current price both scorers return
the degenerate HOLD record whose reasoning string is "Insufficient data"
(capital I), which is not the string "insufficient data" demanded by the
claim. -/
theorem c2_reasoning_is_capitalized :
    (finnhub_generate emptyTechnical (some 0)).reasoning = "Insufficient data" ∧
    (nse_generate emptyTechnical (some 0)).reasoning = "Insufficient data" ∧
    (finnhub_generate emptyTechnical (some 0)).reasoning ≠ "insufficient data" := by
  refine ⟨by decide, by decide, by decide⟩

/-- Claim C2 (amended): whenever the current quote close is zero or
missing, both scorers return exactly the degenerate recommendation
{action HOLD, confidence 0, risk UNKNOWN, reasoning "Insufficient data"}
(capital I), as a total function (never raises). -/
theorem c2_degenerate_hold (technical : Technical) (quote_close : Option ℚ)
    (h : quote_close.getD 0 = 0) :
    finnhub_generate technical quote_close = insufficientDataRecommendation ∧
    nse_generate technical quote_close = insufficientDataRecommendation ∧
    (finnhub_generate technical quote_close).reasoning = "Insufficient data" := by
  unfold finnhub_generate nse_generate
  simp [h, insufficientDataRecommendation]

theorem c2_degenerate_hold_witness :
    (none : Option ℚ).getD 0 = 0 ∧
    (finnhub_generate emptyTechnical none = insufficientDataRecommendation ∧
     nse_generate emptyTechnical none = insufficientDataRecommendation ∧
     (finnhub_generate emptyTechnical none).reasoning = "Insufficient data") :=
  ⟨rfl, c2_degenerate_hold emptyTechnical none rfl⟩

/-- Claim C4: the claim states RSI is always in [0, 100] for series of
length ≥ 15 and is exactly 100 whenever the 14-period average loss is 0,
including the constant-price series.  The code contradicts it: on 15 equal
closes both average gain and average loss are 0, `rs = 0/0` is NaN under
NumPy semantics, and the reported RSI is NaN, not 100 (and not in
[0, 100]). -/
theorem c4_constant_series_rsi_is_nan :
    rsi_last (List.replicate 15 (100:ℚ)) = .nan ∧
    14 ≤ (List.replicate 15 (100:ℚ)).length ∧
    PFloat.nan ≠ PFloat.val 100 := by
  refine ⟨by decide, by decide, by decide⟩

/-- Claim C6: the claim states that for a non-empty series shorter than
`n` the `sma_n` key is absent (never NaN).  The NSE/BSE engine does omit
the key (`None` filtered out), but the Finnhub engine keeps the key with a
NaN value (`rolling(n).mean().iloc[-1]` of an incomplete window), so the
claim fails on the Finnhub engine.  For length ≥ `n` both report the
arithmetic mean of the last `n` closes. -/
theorem c6_short_series_sma :
    finnhub_sma 20 [10, 11, 12, 13, 14] = .nan ∧
    nse_sma 20 [10, 11, 12, 13, 14] = none ∧
    finnhub_sma 3 [1, 2, 3, 4, 5, 6] = .val 5 ∧
    nse_sma 3 [1, 2, 3, 4, 5, 6] = some 5 := by
  refine ⟨by decide, by decide, by decide, by decide⟩

/-- Helper: `pyRound` of a nonnegative rational is nonnegative. -/
lemma pyRound_nonneg (y : ℚ) (hy : 0 ≤ y) : 0 ≤ pyRound y := by
  have hf : (0:ℤ) ≤ ⌊y⌋ := Int.floor_nonneg.mpr hy
  unfold pyRound
  split_ifs <;> omega

/-- Helper: `pyRound` never exceeds an integer upper bound of its input. -/
lemma pyRound_le (y : ℚ) (n : ℤ) (hy : y ≤ n) : pyRound y ≤ n := by
  have hf : ⌊y⌋ ≤ n := by
    have := Int.floor_le_floor hy
    simpa using this
  have hfl : (⌊y⌋ : ℚ) ≤ y := Int.floor_le y
  unfold pyRound
  split_ifs with h1 h2 h3
  · exact hf
  · have hry : (⌊y⌋ : ℚ) + 1/2 < y := by linarith
    have hlt : (⌊y⌋ : ℚ) < (n : ℚ) := by
      have : (y : ℚ) ≤ (n : ℚ) := by exact_mod_cast hy
      linarith
    have : ⌊y⌋ < n := by exact_mod_cast hlt
    omega
  · exact hf
  · have hry : (⌊y⌋ : ℚ) + 1/2 ≤ y := by linarith
    have hlt : (⌊y⌋ : ℚ) < (n : ℚ) := by
      have : (y : ℚ) ≤ (n : ℚ) := by exact_mod_cast hy
      linarith
    have : ⌊y⌋ < n := by exact_mod_cast hlt
    omega

/-- Helper: rounding to two decimals preserves the unit interval. -/
lemma round2_mem_unit (x : ℚ) (h0 : 0 ≤ x) (h1 : x ≤ 1) :
    0 ≤ round2 x ∧ round2 x ≤ 1 := by
  have ha : 0 ≤ pyRound (100 * x) := pyRound_nonneg _ (by linarith)
  have hb : pyRound (100 * x) ≤ (100 : ℤ) := pyRound_le _ 100 (by push_cast; linarith)
  have ha' : (0:ℚ) ≤ (pyRound (100 * x) : ℚ) := by exact_mod_cast ha
  have hb' : ((pyRound (100 * x)) : ℚ) ≤ 100 := by exact_mod_cast hb
  unfold round2
  constructor <;> [positivity; skip]
  rw [div_le_one (by norm_num)]
  exact hb'

/-- Helper: the pre-rounding confidence of the score-band mapping lies in
[0, 1] for every integer score. -/
lemma confidence_mem_unit (fallback : String) (score : ℤ) (price : ℚ)
    (reasons : List String) :
    0 ≤ (recommendation_from_score fallback score price reasons).confidence ∧
    (recommendation_from_score fallback score price reasons).confidence ≤ 1 := by
  by_cases h1 : 3 ≤ score
  · have hc : (recommendation_from_score fallback score price reasons).confidence =
        round2 (min (9/10) (6/10 + (score : ℚ) * (5/100))) := by
      simp [recommendation_from_score, h1]
    rw [hc]
    refine round2_mem_unit _ (le_min (by norm_num) ?_) (le_trans (min_le_left _ _) (by norm_num))
    have : (3:ℚ) ≤ (score : ℚ) := by exact_mod_cast h1
    linarith
  by_cases h2 : 1 ≤ score
  · have hc : (recommendation_from_score fallback score price reasons).confidence =
        round2 (min (8/10) (6/10 + (score : ℚ) * (5/100))) := by
      simp [recommendation_from_score, h1, h2]
    rw [hc]
    refine round2_mem_unit _ (le_min (by norm_num) ?_) (le_trans (min_le_left _ _) (by norm_num))
    have : (1:ℚ) ≤ (score : ℚ) := by exact_mod_cast h2
    linarith
  by_cases h3 : score ≤ -3
  · have hc : (recommendation_from_score fallback score price reasons).confidence =
        round2 (min (9/10) (6/10 + (score.natAbs : ℚ) * (5/100))) := by
      simp [recommendation_from_score, h1, h2, h3]
    rw [hc]
    refine round2_mem_unit _ (le_min (by norm_num) ?_) (le_trans (min_le_left _ _) (by norm_num))
    have : (0:ℚ) ≤ (score.natAbs : ℚ) := by positivity
    linarith
  by_cases h4 : score ≤ -1
  · have hc : (recommendation_from_score fallback score price reasons).confidence =
        round2 (min (8/10) (6/10 + (score.natAbs : ℚ) * (5/100))) := by
      simp [recommendation_from_score, h1, h2, h3, h4]
    rw [hc]
    refine round2_mem_unit _ (le_min (by norm_num) ?_) (le_trans (min_le_left _ _) (by norm_num))
    have : (0:ℚ) ≤ (score.natAbs : ℚ) := by positivity
    linarith
  · have hc : (recommendation_from_score fallback score price reasons).confidence =
        round2 (1/2) := by
      simp [recommendation_from_score, h1, h2, h3, h4]
    rw [hc]
    exact round2_mem_unit _ (by norm_num) (by norm_num)

/-- Claim C3: for every final integer score and positive current price,
the band mapping produces exactly the claimed action, confidence, target
price and stop loss, all rounded to two decimals: score ≥ 3 gives
STRONG_BUY with confidence min(0.9, 0.6 + 0.05·score) and target
price·1.15; score 1 or 2 gives BUY with target price·1.08; score 0 gives
HOLD with confidence 0.5 and target price; score −1 or −2 gives SELL with
target price·0.92; score ≤ −3 gives STRONG_SELL with target price·0.85;
the stop loss is price·0.98 for BUY/STRONG_BUY and price·1.02 otherwise. -/
theorem c3_score_band_mapping (score : ℤ) (price : ℚ) (reasons : List String)
    (hp : 0 < price) :
    (3 ≤ score →
      (recommendation_from_score "Mixed signals" score price reasons).action = "STRONG_BUY" ∧
      (recommendation_from_score "Mixed signals" score price reasons).confidence =
        round2 (min (9/10) (6/10 + (score : ℚ) * (5/100))) ∧
      (recommendation_from_score "Mixed signals" score price reasons).target_price =
        round2 (price * (115/100)) ∧
      (recommendation_from_score "Mixed signals" score price reasons).stop_loss =
        round2 (price * (98/100))) ∧
    ((score = 1 ∨ score = 2) →
      (recommendation_from_score "Mixed signals" score price reasons).action = "BUY" ∧
      (recommendation_from_score "Mixed signals" score price reasons).confidence =
        round2 (min (8/10) (6/10 + (score : ℚ) * (5/100))) ∧
      (recommendation_from_score "Mixed signals" score price reasons).target_price =
        round2 (price * (108/100)) ∧
      (recommendation_from_score "Mixed signals" score price reasons).stop_loss =
        round2 (price * (98/100))) ∧
    (score = 0 →
      (recommendation_from_score "Mixed signals" score price reasons).action = "HOLD" ∧
      (recommendation_from_score "Mixed signals" score price reasons).confidence = 1/2 ∧
      (recommendation_from_score "Mixed signals" score price reasons).target_price =
        round2 price ∧
      (recommendation_from_score "Mixed signals" score price reasons).stop_loss =
        round2 (price * (102/100))) ∧
    ((score = -1 ∨ score = -2) →
      (recommendation_from_score "Mixed signals" score price reasons).action = "SELL" ∧
      (recommendation_from_score "Mixed signals" score price reasons).confidence =
        round2 (min (8/10) (6/10 + (score.natAbs : ℚ) * (5/100))) ∧
      (recommendation_from_score "Mixed signals" score price reasons).target_price =
        round2 (price * (92/100)) ∧
      (recommendation_from_score "Mixed signals" score price reasons).stop_loss =
        round2 (price * (102/100))) ∧
    (score ≤ -3 →
      (recommendation_from_score "Mixed signals" score price reasons).action = "STRONG_SELL" ∧
      (recommendation_from_score "Mixed signals" score price reasons).confidence =
        round2 (min (9/10) (6/10 + (score.natAbs : ℚ) * (5/100))) ∧
      (recommendation_from_score "Mixed signals" score price reasons).target_price =
        round2 (price * (85/100)) ∧
      (recommendation_from_score "Mixed signals" score price reasons).stop_loss =
        round2 (price * (102/100))) := by
  refine ⟨fun h => ?_, fun h => ?_, fun h => ?_, fun h => ?_, fun h => ?_⟩
  · simp [recommendation_from_score, h]
  · have h3 : ¬ 3 ≤ score := by omega
    have h1 : 1 ≤ score := by omega
    simp [recommendation_from_score, h1, h3]
  · subst h
    refine ⟨?_, ?_, ?_, ?_⟩ <;> simp [recommendation_from_score]
    decide
  · have h3 : ¬ 3 ≤ score := by omega
    have h1 : ¬ 1 ≤ score := by omega
    have hm3 : ¬ score ≤ -3 := by omega
    have hm1 : score ≤ -1 := by omega
    simp [recommendation_from_score, h1, h3, hm1, hm3]
  · have h3 : ¬ 3 ≤ score := by omega
    have h1 : ¬ 1 ≤ score := by omega
    simp [recommendation_from_score, h1, h3, h]

theorem c3_score_band_mapping_witness :
    0 < (100:ℚ) ∧
    ((3 ≤ (3:ℤ) →
      (recommendation_from_score "Mixed signals" 3 100 []).action = "STRONG_BUY" ∧
      (recommendation_from_score "Mixed signals" 3 100 []).confidence =
        round2 (min (9/10) (6/10 + ((3:ℤ) : ℚ) * (5/100))) ∧
      (recommendation_from_score "Mixed signals" 3 100 []).target_price =
        round2 ((100:ℚ) * (115/100)) ∧
      (recommendation_from_score "Mixed signals" 3 100 []).stop_loss =
        round2 ((100:ℚ) * (98/100))) ∧
    (((3:ℤ) = 1 ∨ (3:ℤ) = 2) →
      (recommendation_from_score "Mixed signals" 3 100 []).action = "BUY" ∧
      (recommendation_from_score "Mixed signals" 3 100 []).confidence =
        round2 (min (8/10) (6/10 + ((3:ℤ) : ℚ) * (5/100))) ∧
      (recommendation_from_score "Mixed signals" 3 100 []).target_price =
        round2 ((100:ℚ) * (108/100)) ∧
      (recommendation_from_score "Mixed signals" 3 100 []).stop_loss =
        round2 ((100:ℚ) * (98/100))) ∧
    ((3:ℤ) = 0 →
      (recommendation_from_score "Mixed signals" 3 100 []).action = "HOLD" ∧
      (recommendation_from_score "Mixed signals" 3 100 []).confidence = 1/2 ∧
      (recommendation_from_score "Mixed signals" 3 100 []).target_price = round2 100 ∧
      (recommendation_from_score "Mixed signals" 3 100 []).stop_loss =
        round2 ((100:ℚ) * (102/100))) ∧
    (((3:ℤ) = -1 ∨ (3:ℤ) = -2) →
      (recommendation_from_score "Mixed signals" 3 100 []).action = "SELL" ∧
      (recommendation_from_score "Mixed signals" 3 100 []).confidence =
        round2 (min (8/10) (6/10 + (((3:ℤ)).natAbs : ℚ) * (5/100))) ∧
      (recommendation_from_score "Mixed signals" 3 100 []).target_price =
        round2 ((100:ℚ) * (92/100)) ∧
      (recommendation_from_score "Mixed signals" 3 100 []).stop_loss =
        round2 ((100:ℚ) * (102/100))) ∧
    ((3:ℤ) ≤ -3 →
      (recommendation_from_score "Mixed signals" 3 100 []).action = "STRONG_SELL" ∧
      (recommendation_from_score "Mixed signals" 3 100 []).confidence =
        round2 (min (9/10) (6/10 + (((3:ℤ)).natAbs : ℚ) * (5/100))) ∧
      (recommendation_from_score "Mixed signals" 3 100 []).target_price =
        round2 ((100:ℚ) * (85/100)) ∧
      (recommendation_from_score "Mixed signals" 3 100 []).stop_loss =
        round2 ((100:ℚ) * (102/100)))) :=
  ⟨by decide, c3_score_band_mapping 3 100 [] (by decide)⟩

/-- Claim C7: for every indicator set and every quote (hence every
reachable score), the confidence returned by both scorers lies in [0, 1]:
the degenerate path returns 0 and every score band returns a min-clamped
value in [0.5, 0.9] that two-decimal rounding keeps inside the unit
interval. -/
theorem c7_confidence_in_unit_interval (technical : Technical) (quote_close : Option ℚ) :
    (0 ≤ (finnhub_generate technical quote_close).confidence ∧
      (finnhub_generate technical quote_close).confidence ≤ 1) ∧
    (0 ≤ (nse_generate technical quote_close).confidence ∧
      (nse_generate technical quote_close).confidence ≤ 1) := by
  unfold finnhub_generate nse_generate
  by_cases h : quote_close.getD 0 = 0
  · simp [h, insufficientDataRecommendation]
  · simp only [h, if_false]
    exact ⟨confidence_mem_unit _ _ _ _, confidence_mem_unit _ _ _ _⟩

/-- Claim C5: the claim states that on a series whose last 20 closes are
equal the engine omits `bb_position` rather than dividing by zero.  The
code contradicts it: the NSE/BSE engine (length ≥ 20, so the guarded
block runs) and the Finnhub engine both evaluate
`(last - lower) / (upper - lower)` = 0/0 under NumPy scalar semantics and
report `bb_position` = NaN — the key is present, the division is
performed. -/
theorem c5_constant_series_bb_position_is_nan :
    nse_bb_position (List.replicate 20 (50:ℚ)) = some PFloatR.nan ∧
    finnhub_bb_position (List.replicate 20 (50:ℚ)) = PFloatR.nan := by
  have hvar : sampleVarQ (lastN 20 (List.replicate 20 (50:ℚ))) = 0 := by decide
  have hmean : meanQ (lastN 20 (List.replicate 20 (50:ℚ))) = 50 := by decide
  have hlast : ((List.replicate 20 (50:ℚ)).getLast?.getD 0) = 50 := by decide
  have hbb : bb_position_value (List.replicate 20 (50:ℚ)) = PFloatR.nan := by
    simp only [bb_position_value, hvar, hmean, hlast]
    rw [show ((0:ℚ):ℝ) = (0:ℝ) by norm_num, Real.sqrt_zero]
    unfold divIEEE
    norm_num
  have hl : 20 ≤ (List.replicate 20 (50:ℚ)).length := by simp
  constructor
  · unfold nse_bb_position
    rw [if_pos hl, hbb]
  · unfold finnhub_bb_position
    rw [if_pos hl, hbb]

/-- Helper: the MACD if/else always appends exactly one reason. -/
lemma macd_check_reasons_ne_nil (a b : PFloat) : (macd_check a b).2 ≠ [] := by
  unfold macd_check
  split <;> simp

/-- Claim C10: for every input whose nonzero current price reaches the
scoring rules, the reasons list is non-empty (the MACD if/else always
appends a reason, even with both values defaulted to 0), so the
"Mixed signals" / "Mixed technical signals" fallback branch is
unreachable and the reasoning is always the join of the reasons. -/
theorem c10_reasons_never_empty (technical : Technical) (current_price : ℚ)
    (h : current_price ≠ 0) :
    (finnhub_calculate_score technical current_price).2 ≠ [] ∧
    (nse_calculate_score technical current_price).2 ≠ [] ∧
    (finnhub_generate technical (some current_price)).reasoning =
      String.intercalate "; " (finnhub_calculate_score technical current_price).2 ∧
    (nse_generate technical (some current_price)).reasoning =
      String.intercalate "; " (nse_calculate_score technical current_price).2 := by
  have hmf := macd_check_reasons_ne_nil ((technical.macd).getD (.val 0))
    ((technical.macd_signal).getD (.val 0))
  have hf : (finnhub_calculate_score technical current_price).2 ≠ [] := by
    simp only [finnhub_calculate_score, ne_eq, List.append_eq_nil]
    intro hc
    exact hmf hc.1.2
  have hn : (nse_calculate_score technical current_price).2 ≠ [] := by
    simp only [nse_calculate_score, ne_eq, List.append_eq_nil]
    intro hc
    exact hmf hc.1.2
  refine ⟨hf, hn, ?_, ?_⟩
  · unfold finnhub_generate
    simp only [Option.getD_some, h, if_false]
    unfold recommendation_from_score
    simp only [List.isEmpty_eq_true, hf, if_false]
  · unfold nse_generate
    simp only [Option.getD_some, h, if_false]
    unfold recommendation_from_score
    simp only [List.isEmpty_eq_true, hn, if_false]

theorem c10_reasons_never_empty_witness :
    (100:ℚ) ≠ 0 ∧
    ((finnhub_calculate_score emptyTechnical 100).2 ≠ [] ∧
     (nse_calculate_score emptyTechnical 100).2 ≠ [] ∧
     (finnhub_generate emptyTechnical (some 100)).reasoning =
       String.intercalate "; " (finnhub_calculate_score emptyTechnical 100).2 ∧
     (nse_generate emptyTechnical (some 100)).reasoning =
       String.intercalate "; " (nse_calculate_score emptyTechnical 100).2) :=
  ⟨by decide, c10_reasons_never_empty emptyTechnical 100 (by decide)⟩

/-- Claim C9: with `bb_position` present and exactly 0.0, the NSE/BSE
"Near lower Bollinger Band" signal contributes nothing (Python truthiness
`if bb_position:` treats 0.0 as absent) even though 0.0 < 0.2; likewise an
rsi key equal to 0.0 fails its truthiness guard even though 0 < 30.  On an
indicator set with rsi = 0.0 and bb_position = 0.0 only the (defaulted)
MACD bearish signal fires. -/
theorem c9_truthiness_drops_zero_values :
    bb_check_nse (some (.val 0)) = (0, []) ∧
    rsi_check_nse (.val 0) = (0, []) ∧
    (0:ℚ) < 1/5 ∧ (0:ℚ) < 30 ∧
    nse_calculate_score ⟨some (.val 0), none, none, none, none, some (.val 0)⟩ 100 =
      (-1, ["MACD bearish trend"]) := by
  refine ⟨by decide, by decide, by decide, by decide, by decide⟩
